import Mathlib

/-!
# Verification of the water-level-forecast parsing and validation layer

Shallow embedding of the repository's format-decoding and schema-validation
core (`src/data_pipelines/external/dwd_parser.py` and
`src/data_pipelines/external/schemas.py`) together with proofs of the
specification's claims about it.

Conventions of the embedding:
* Python `datetime.datetime` values are modelled by `PyDatetime` below.
* Python `float` values are modelled as exact rationals (`ℚ`); every numeric
  comparison made by a claim (`-999`, `0`, absence) is exact in both models.
* Fallible Python code (raising `ValueError` / pydantic validation errors)
  is modelled with `Option`/`Except`.
-/

/-- Model of a Python `datetime.datetime`: `wall` is the wall-clock reading in
seconds counted from 1970-01-01T00:00:00 of its own clock, and `tz` is `none`
for a naive datetime or `some o` for an aware one with a fixed UTC offset of
`o` seconds.  `timezone.utc` is offset `0`; Python compares `timezone`
instances equal exactly when their offsets are equal, so the check
`v.tzinfo != timezone.utc` of the source holds iff `tz ≠ some 0`. -/
structure PyDatetime where
  wall : Int
  tz : Option Int
deriving DecidableEq, Repr

/-- Days since 1970-01-01 of the proleptic-Gregorian civil date `(y, m, d)`
(the standard era-based conversion, with floor division). -/
def daysFromCivil (y m d : Int) : Int :=
  let y2 := y - (if m ≤ 2 then 1 else 0)
  let era := Int.fdiv y2 400
  let yoe := y2 - era * 400
  let mp := (m + 9).emod 12
  let doy := Int.fdiv (153 * mp + 2) 5 + d - 1
  let doe := yoe * 365 + Int.fdiv yoe 4 - Int.fdiv yoe 100 + doy
  era * 146097 + doe - 719468

/-- Civil date `(y, m, d)` of a count of days since 1970-01-01 (inverse of
`daysFromCivil`). -/
def civilFromDays (z0 : Int) : Int × Int × Int :=
  let z := z0 + 719468
  let era := Int.fdiv z 146097
  let doe := z - era * 146097
  let yoe := Int.fdiv (doe - Int.fdiv doe 1460 + Int.fdiv doe 36524 - Int.fdiv doe 146096) 365
  let y := yoe + era * 400
  let doy := doe - (365 * yoe + Int.fdiv yoe 4 - Int.fdiv yoe 100)
  let mp := Int.fdiv (5 * doy + 2) 153
  let d := doy - Int.fdiv (153 * mp + 2) 5 + 1
  let m := mp + (if mp < 10 then 3 else -9)
  (y + (if m ≤ 2 then 1 else 0), m, d)

/-- The calendar date (in UTC wall-clock terms of the datetime itself) of a
`PyDatetime`, i.e. Python's `(v.year, v.month, v.day)`. -/
def dateOf (dt : PyDatetime) : Int × Int × Int :=
  civilFromDays (Int.fdiv dt.wall 86400)

def isLeapYear (y : Int) : Bool :=
  (y.emod 4 = 0 && y.emod 100 ≠ 0) || y.emod 400 = 0

def daysInMonth (y m : Int) : Int :=
  if m = 2 then (if isLeapYear y then 29 else 28)
  else if m = 4 ∨ m = 6 ∨ m = 9 ∨ m = 11 then 30 else 31

/-- A calendar date `datetime` accepts: year 1..9999, valid month and day. -/
def isValidCivil (y m d : Int) : Bool :=
  1 ≤ y && y ≤ 9999 && 1 ≤ m && m ≤ 12 && 1 ≤ d && d ≤ daysInMonth y m

/-- Wall-clock seconds since the 1970-01-01T00:00:00 reading of the same
clock, for the civil time `(y, m, d, hh, mi, ss)`. -/
def wallOfCivil (y m d hh mi ss : Int) : Int :=
  daysFromCivil y m d * 86400 + hh * 3600 + mi * 60 + ss

/-- The ASCII whitespace set Python's `str.strip` removes. -/
def isPySpace (c : Char) : Bool :=
  c = ' ' || c = '\t' || c = '\n' || c = '\r' || c = '\x0b' || c = '\x0c'

/-- Python `str.strip()`: whitespace removed at both ends. -/
def pyStrip (s : String) : String :=
  String.mk (((s.toList.dropWhile isPySpace).reverse.dropWhile isPySpace).reverse)

/-- Splits a character list at every occurrence of `sep`; always returns at
least one (possibly empty) piece. -/
def splitOnChar (sep : Char) : List Char → List (List Char)
  | [] => [[]]
  | c :: cs =>
      if c = sep then [] :: splitOnChar sep cs
      else match splitOnChar sep cs with
        | [] => [[c]]
        | f :: rest => (c :: f) :: rest

/-- `s.replace("Z", "+00:00")` specialised to its single-character pattern:
every `Z` is expanded to the explicit zero offset. -/
def replaceZ (s : String) : String :=
  String.mk ((s.toList.map (fun c => if c = 'Z' then "+00:00".toList else [c])).flatten)

/-- `name.endswith(".txt")`. -/
def endsWithTxt (s : String) : Bool :=
  s.toList.reverse.take 4 = ['t', 'x', 't', '.']

def digitsToNatAux : List Char → Nat → Option Nat
  | [], acc => some acc
  | c :: cs, acc =>
      if c.isDigit then digitsToNatAux cs (acc * 10 + (c.toNat - 48)) else none

/-- The numeric value of a non-empty all-digit character list; `none`
otherwise. -/
def digitsToNat (cs : List Char) : Option Nat :=
  if cs = [] then none else digitsToNatAux cs 0

/-- Reads exactly `n` leading digit characters, returning their value and the
remaining characters. -/
def parseDigits (n : Nat) (cs : List Char) : Option (Nat × List Char) :=
  if (cs.take n).length = n then
    (digitsToNat (cs.take n)).map (fun v => (v, cs.drop n))
  else none

def expectChar (c : Char) : List Char → Option (List Char)
  | c2 :: rest => if c2 = c then some rest else none
  | [] => none

/-- `datetime.strptime(v, "%Y%m%d%H%M")`, restricted to the provider's exact
12-digit form (shorter inputs, which Python would match with narrower year
fields, do not occur and are not modelled).  The result is naive. -/
def strptime_YmdHM (s : String) : Option PyDatetime :=
  let cs := s.toList
  if cs.length = 12 then
    match digitsToNat (cs.take 4), digitsToNat ((cs.drop 4).take 2),
        digitsToNat ((cs.drop 6).take 2), digitsToNat ((cs.drop 8).take 2),
        digitsToNat ((cs.drop 10).take 2) with
    | some y, some mo, some d, some hh, some mi =>
        if isValidCivil y mo d && hh < 24 && mi < 60 then
          some ⟨wallOfCivil y mo d hh mi 0, none⟩
        else none
    | _, _, _, _, _ => none
  else none

/-- `datetime.strptime(v, "%Y%m%d")`, restricted to the exact 8-digit form.
The result is naive. -/
def strptime_Ymd (s : String) : Option PyDatetime :=
  let cs := s.toList
  if cs.length = 8 then
    match digitsToNat (cs.take 4), digitsToNat ((cs.drop 4).take 2),
        digitsToNat ((cs.drop 6).take 2) with
    | some y, some mo, some d =>
        if isValidCivil y mo d then some ⟨wallOfCivil y mo d 0 0 0, none⟩ else none
    | _, _, _ => none
  else none

/-- Python's `v.replace(tzinfo=timezone.utc)`: reinterpret the same wall-clock
reading as UTC. -/
def replaceTzUtc (d : PyDatetime) : PyDatetime :=
  { d with tz := some 0 }

/-- The optional trailing UTC-offset part of an ISO string: empty input means
a naive result, otherwise `±HH:MM` (as an offset in seconds). -/
def fromisoOffset (t4 : List Char) : Option (Option Int) :=
  match t4 with
  | [] => some none
  | sgn :: t5 =>
    if sgn ≠ '+' && sgn ≠ '-' then none else
    match parseDigits 2 t5 with
    | none => none
    | some (oh, u1) =>
    match expectChar ':' u1 with
    | none => none
    | some u2 =>
    match parseDigits 2 u2 with
    | none => none
    | some (om, u3) =>
    if u3 ≠ [] || oh ≥ 24 || om ≥ 60 then none
    else some (some ((if sgn = '-' then -1 else 1) * ((oh : Int) * 3600 + (om : Int) * 60)))

/-- The `HH:MM[:SS][±HH:MM]` part of an ISO string, combined with an already
parsed civil date. -/
def fromisoTimePart (y mo d : Nat) (rest : List Char) : Option PyDatetime :=
  match parseDigits 2 rest with
  | none => none
  | some (hh, t1) =>
  match expectChar ':' t1 with
  | none => none
  | some t2 =>
  match parseDigits 2 t2 with
  | none => none
  | some (mi, t3) =>
  match (match t3 with
    | ':' :: t => parseDigits 2 t
    | _ => some (0, t3)) with
  | none => none
  | some (ss, t4) =>
  if hh ≥ 24 || mi ≥ 60 || ss ≥ 60 then none
  else match fromisoOffset t4 with
    | none => none
    | some off => some ⟨wallOfCivil y mo d hh mi ss, off⟩

/-- `datetime.fromisoformat` on the subset of ISO-8601 the providers emit:
`YYYY-MM-DD`, optionally followed by `T` or a space and `HH:MM[:SS]`, and
optionally an explicit offset `±HH:MM`.  Fractional seconds and offsets with
a seconds part are outside the model (the sources never produce them).
Invalid input is `none` (Python raises `ValueError`). -/
def fromisoformat (s : String) : Option PyDatetime :=
  match parseDigits 4 s.toList with
  | none => none
  | some (y, r1) =>
  match expectChar '-' r1 with
  | none => none
  | some r2 =>
  match parseDigits 2 r2 with
  | none => none
  | some (mo, r3) =>
  match expectChar '-' r3 with
  | none => none
  | some r4 =>
  match parseDigits 2 r4 with
  | none => none
  | some (d, r5) =>
  if !isValidCivil y mo d then none
  else match r5 with
    | [] => some ⟨wallOfCivil y mo d 0 0 0, none⟩
    | sep :: rest =>
      if sep ≠ 'T' && sep ≠ ' ' then none
      else fromisoTimePart y mo d rest

/-- pydantic's lax string→`datetime` coercion (the speedate parser), as used
for fields with no `mode="before"` validator: a purely numeric string is read
as a Unix timestamp — seconds, or milliseconds once the value reaches
2·10^10 — and yields a UTC-aware datetime; any other string is parsed as
ISO-8601 (here the `fromisoformat` subset, with a trailing `Z` accepted). -/
def pydantic_str_to_datetime (s : String) : Option PyDatetime :=
  let cs := s.toList
  if cs ≠ [] && cs.all Char.isDigit then
    (digitsToNat cs).map (fun (n : Nat) =>
      if n < 20000000000 then ⟨(n : Int), some 0⟩ else ⟨(Nat.div n 1000 : Int), some 0⟩)
  else fromisoformat (replaceZ s)

/-- Python `str.zfill(w)`: left-pad with `'0'` to width `w`, keeping a leading
sign character in front of the padding. -/
def zfill (s : String) (w : Nat) : String :=
  let cs := s.toList
  if cs.length ≥ w then s
  else match cs with
    | c :: rest =>
        if c = '+' ∨ c = '-' then
          String.mk (c :: (List.replicate (w - cs.length) '0' ++ rest))
        else String.mk (List.replicate (w - cs.length) '0' ++ cs)
    | [] => String.mk (List.replicate w '0')

/-- Python `int(s)` on strings: surrounding whitespace stripped, optional
sign, decimal digits (underscore group separators are not modelled; no claim
touches them).  `none` models the `ValueError`. -/
def pyInt (s : String) : Option Int :=
  match (pyStrip s).toList with
  | '+' :: rest => (digitsToNat rest).map (fun n => (n : Int))
  | '-' :: rest => (digitsToNat rest).map (fun n => -(n : Int))
  | cs => (digitsToNat cs).map (fun n => (n : Int))

def takeDigits (cs : List Char) : List Char × List Char :=
  (cs.takeWhile Char.isDigit, cs.dropWhile Char.isDigit)

def natOfDigits (cs : List Char) : Nat :=
  cs.foldl (fun a c => a * 10 + (c.toNat - 48)) 0

/-- Unsigned part of Python `float(s)`:
`digits[.digits][ (e|E)[sign]digits ]` with at least one mantissa digit. -/
def pyFloatCore (cs : List Char) : Option ℚ :=
  let (ip, r1) := takeDigits cs
  let (fp, r2) := match r1 with
    | '.' :: t => takeDigits t
    | _ => ([], r1)
  if ip = [] ∧ fp = [] then none else
  let mantNum : Nat := natOfDigits ip * 10 ^ fp.length + natOfDigits fp
  let mantDen : Nat := 10 ^ fp.length
  match r2 with
  | [] => some (mkRat mantNum mantDen)
  | e :: t =>
    if e ≠ 'e' ∧ e ≠ 'E' then none else
    let (eneg, t2) : Bool × List Char := match t with
      | '+' :: u => (false, u)
      | '-' :: u => (true, u)
      | _ => (false, t)
    let (ed, t3) := takeDigits t2
    if ed = [] ∨ t3 ≠ [] then none else
    if eneg then some (mkRat mantNum (mantDen * 10 ^ natOfDigits ed))
    else some (mkRat (mantNum * 10 ^ natOfDigits ed) mantDen)

/-- Python `float(s)` on finite decimal literals, modelled exactly as a
rational (IEEE rounding does not affect any value a claim compares; all
compared values are integers).  The `inf`/`nan` spellings and underscore
separators are outside the model. -/
def pyFloat (s : String) : Option ℚ :=
  match (pyStrip s).toList with
  | '+' :: rest => pyFloatCore rest
  | '-' :: rest => (pyFloatCore rest).map Rat.neg
  | cs => pyFloatCore cs

/-! ## Schema validators (`schemas.py`) -/

/-- `PegelonlineMeasurements.convert_to_utc` and (the identical)
`PegelonlineForecasts.convert_to_utc`: `v.astimezone(timezone.utc)`.  On an
offset-aware input this shifts the wall clock by the negated offset and pins
the zone to UTC; a naive input (which Python would interpret in the system
timezone) is environment-dependent and outside the model. -/
def convert_to_utc (d : PyDatetime) : Option PyDatetime :=
  d.tz.map (fun o => ⟨d.wall - o, some 0⟩)

/-- The `verify_utc` after-validators of `DWDMosmixLForecasts`,
`DWDPercipitationStations` and `DWDTemperatureStations` (they differ only in
the message): fail unless `v.tzinfo == timezone.utc`. -/
def verify_utc (msg : String) (v : PyDatetime) : Except String PyDatetime :=
  if v.tz = some 0 then .ok v else .error msg

/-- `DWDPercipitationMeasurements.parse_timestamp` and (the identical)
`DWDTemperatureMeasurements.parse_timestamp`:
`datetime.strptime(v, "%Y%m%d%H%M").replace(tzinfo=timezone.utc)`. -/
def parse_timestamp (v : String) : Option PyDatetime :=
  (strptime_YmdHM v).map replaceTzUtc

/-- `DWDTemperatureStations.parse_station_date`, string branch:
`datetime.strptime(str(v).strip(), "%Y%m%d").replace(tzinfo=timezone.utc)`
(the `isinstance(v, datetime)` branch never fires on parser output, which is
always a string). -/
def parse_station_date (v : String) : Option PyDatetime :=
  (strptime_Ymd (pyStrip v)).map replaceTzUtc

/-- `DWDPercipitationStations.von_datum`/`bis_datum` validation: the class
declares NO `mode="before"` parser for its date fields, so pydantic's generic
string coercion runs first, then `verify_utc`. -/
def precipStationParseDate (v : String) : Except String PyDatetime :=
  match pydantic_str_to_datetime v with
  | none => .error ("invalid datetime: " ++ v)
  | some d => verify_utc "DWD precipitation station date must be in UTC" d

/-- `DWDTemperatureStations.von_datum`/`bis_datum` validation:
`parse_station_date` (mode before) then `verify_utc` (mode after). -/
def tempStationParseDate (v : String) : Except String PyDatetime :=
  match parse_station_date v with
  | none => .error ("invalid date: " ++ v)
  | some d => verify_utc "DWD temperature station date must be in UTC" d

/-- `process_station_data` of `DWDPercipitationMeasurements` and (the
identical) `DWDTemperatureMeasurements`, restricted to the only key it
touches: pad `STATIONS_ID` with `str(...).zfill(5)`, then compare against the
context's expected id.  Python's truthiness test `if expected and ...` means
a missing (`none`) or empty expected id disables the comparison. -/
def process_station_data (sid : String) (ctx : Option String) : Except String String :=
  match ctx with
  | none => .ok (zfill sid 5)
  | some expected =>
      if expected ≠ "" && zfill sid 5 ≠ expected then
        .error ("Station ID mismatch: expected " ++ expected ++ ", got " ++ zfill sid 5)
      else .ok (zfill sid 5)

/-- `DWDPercipitationMeasurements.handle_missing_int`:
`None if v.strip() == "-999" else int(v)`. -/
def handle_missing_int (v : String) : Except String (Option Int) :=
  if pyStrip v = "-999" then .ok none
  else match pyInt v with
    | some n => .ok (some n)
    | none => .error ("invalid literal for int: " ++ v)

/-- `DWDPercipitationMeasurements.handle_missing_float` and (up to the
`str(v)` cast) `DWDTemperatureMeasurements.handle_missing_float`:
`None if v.strip() == "-999" else float(v)`. -/
def handle_missing_float (v : String) : Except String (Option ℚ) :=
  if pyStrip v = "-999" then .ok none
  else match pyFloat v with
    | some q => .ok (some q)
    | none => .error ("could not convert string to float: " ++ v)

/-- One raw row of the 10-minute precipitation series, keyed as in the
provider's CSV. -/
structure PrecipRow where
  STATIONS_ID : String
  MESS_DATUM : String
  QN : String
  RWS_DAU_10 : String
  RWS_10 : String
  RWS_IND_10 : String
deriving DecidableEq, Repr

/-- A validated `DWDPercipitationMeasurements` record. -/
structure PrecipRecord where
  station_id : String
  timestamp : PyDatetime
  quality_note : Int
  precipitation_duration : Option Int
  precipitation_amount : Option ℚ
  precipitation_index : Option Int
deriving DecidableEq, Repr

/-- Validation of one precipitation measurement row by
`DWDPercipitationMeasurements`: the `process_station_data` model validator,
then per-field coercion (`parse_timestamp`, pydantic int coercion for `QN`,
`handle_missing_int`/`handle_missing_float` for the sentinel fields). -/
def validatePrecipRow (row : PrecipRow) (ctx : Option String) : Except String PrecipRecord :=
  match process_station_data row.STATIONS_ID ctx with
  | .error e => .error e
  | .ok sid =>
  match parse_timestamp row.MESS_DATUM with
  | none => .error ("invalid MESS_DATUM: " ++ row.MESS_DATUM)
  | some ts =>
  match pyInt row.QN with
  | none => .error ("invalid QN: " ++ row.QN)
  | some qn =>
  match handle_missing_int row.RWS_DAU_10 with
  | .error e => .error e
  | .ok dur =>
  match handle_missing_float row.RWS_10 with
  | .error e => .error e
  | .ok amt =>
  match handle_missing_int row.RWS_IND_10 with
  | .error e => .error e
  | .ok idx => .ok ⟨sid, ts, qn, dur, amt, idx⟩

/-- One raw row of the 10-minute temperature series. -/
structure TempRow where
  STATIONS_ID : String
  MESS_DATUM : String
  QN : String
  PP_10 : String
  TT_10 : String
  TM5_10 : String
  RF_10 : String
  TD_10 : String
deriving DecidableEq, Repr

/-- A validated `DWDTemperatureMeasurements` record. -/
structure TempRecord where
  station_id : String
  timestamp : PyDatetime
  quality_note : Int
  pressure_hpa : Option ℚ
  temperature_2m : Option ℚ
  temperature_5cm : Option ℚ
  relative_humidity : Option ℚ
  dew_point_temperature : Option ℚ
deriving DecidableEq, Repr

/-- Validation of one temperature measurement row by
`DWDTemperatureMeasurements` (same structure as the precipitation variant,
with five `-999`-sentinel float fields). -/
def validateTempRow (row : TempRow) (ctx : Option String) : Except String TempRecord :=
  match process_station_data row.STATIONS_ID ctx with
  | .error e => .error e
  | .ok sid =>
  match parse_timestamp row.MESS_DATUM with
  | none => .error ("invalid MESS_DATUM: " ++ row.MESS_DATUM)
  | some ts =>
  match pyInt row.QN with
  | none => .error ("invalid QN: " ++ row.QN)
  | some qn =>
  match handle_missing_float row.PP_10 with
  | .error e => .error e
  | .ok pp =>
  match handle_missing_float row.TT_10 with
  | .error e => .error e
  | .ok tt =>
  match handle_missing_float row.TM5_10 with
  | .error e => .error e
  | .ok tm5 =>
  match handle_missing_float row.RF_10 with
  | .error e => .error e
  | .ok rf =>
  match handle_missing_float row.TD_10 with
  | .error e => .error e
  | .ok td => .ok ⟨sid, ts, qn, pp, tt, tm5, rf, td⟩

/-! ## MOSMIX-L KMZ forecast parser and validator -/

/-- The allow-listed forecast parameters found in the placemark, i.e. the
`forecasts` dict of `DWDMosmixLSingleStationKMZParser._parse_forecasts`
restricted to its only possible keys `RR1c`, `RR3c`, `TTT` (`none` = key
absent from the KML). -/
structure MosmixForecastValues where
  RR1c : Option (List String)
  RR3c : Option (List String)
  TTT : Option (List String)
deriving DecidableEq, Repr

/-- One element of the list `_create_json_structure` returns: a flat record
of raw strings. -/
structure MosmixRawRow where
  issue_time : String
  timestamp : String
  RR1c : String
  RR3c : String
  TTT : String
deriving DecidableEq, Repr

/-- Python's 4-ary `zip`: truncates to the shortest input. -/
def zip4 : List α → List β → List γ → List δ → List (α × β × γ × δ)
  | a :: as2, b :: bs, c :: cs, d :: ds => (a, b, c, d) :: zip4 as2 bs cs ds
  | _, _, _, _ => []

/-- `DWDMosmixLSingleStationKMZParser._create_json_structure`: each absent
allow-listed parameter defaults to `["-"] * len(forecast_timestamps)`, then
the four sequences are zipped into one record per timestamp. -/
def create_json_structure (issue_time : String) (forecast_timestamps : List String)
    (forecasts : MosmixForecastValues) : List MosmixRawRow :=
  (zip4 forecast_timestamps
      (forecasts.RR1c.getD (List.replicate forecast_timestamps.length "-"))
      (forecasts.RR3c.getD (List.replicate forecast_timestamps.length "-"))
      (forecasts.TTT.getD (List.replicate forecast_timestamps.length "-"))).map
    (fun q => ⟨issue_time, q.1, q.2.1, q.2.2.1, q.2.2.2⟩)

/-- A validated `DWDMosmixLForecasts` record. -/
structure MosmixRecord where
  station_id : String
  issue_time : PyDatetime
  timestamp : PyDatetime
  RR1c : Option ℚ
  RR3c : Option ℚ
  TTT : Option ℚ
deriving DecidableEq, Repr

/-- The per-parameter step of `DWDMosmixLForecasts`: the before-validator
maps the `"-"` sentinel to `None`, then the `Optional[float]` field coerces
the remaining string. -/
def mosmixFloatField (v : String) : Except String (Option ℚ) :=
  if v = "-" then .ok none
  else match pyFloat v with
    | some q => .ok (some q)
    | none => .error ("could not parse float: " ++ v)

/-- Validation of one forecast record by `DWDMosmixLForecasts`:
`convert_values_and_timestamps` (ISO parsing after `Z → +00:00`, sentinel
mapping, station-id injection from context) followed by the per-field
validators, with `verify_utc` on both datetimes.  A missing context id leaves
the required `station_id` field unset, which pydantic rejects. -/
def validateMosmixRow (row : MosmixRawRow) (ctx : Option String) : Except String MosmixRecord :=
  match fromisoformat (replaceZ row.issue_time) with
  | none => .error ("Invalid issue_time: " ++ row.issue_time)
  | some it =>
  match fromisoformat (replaceZ row.timestamp) with
  | none => .error ("Invalid timestamp: " ++ row.timestamp)
  | some ts =>
  match ctx with
  | none => .error "Field required: station_id"
  | some sid =>
  match verify_utc "DWD MOSMIX timestamp must be in UTC" it with
  | .error e => .error e
  | .ok it2 =>
  match verify_utc "DWD MOSMIX timestamp must be in UTC" ts with
  | .error e => .error e
  | .ok ts2 =>
  match mosmixFloatField row.RR1c with
  | .error e => .error e
  | .ok r1 =>
  match mosmixFloatField row.RR3c with
  | .error e => .error e
  | .ok r3 =>
  match mosmixFloatField row.TTT with
  | .error e => .error e
  | .ok t => .ok ⟨sid, it2, ts2, r1, r3, t⟩

/-- `DWDMosmixLForecasts.validate`: validate every parsed record against the
same station-id context; any failing row fails the whole call. -/
def validateMosmixRows (rows : List MosmixRawRow) (ctx : Option String) :
    Except String (List MosmixRecord) :=
  match rows with
  | [] => .ok []
  | r :: rest =>
    match validateMosmixRow r ctx with
    | .error e => .error e
    | .ok rec =>
      match validateMosmixRows rest ctx with
      | .error e => .error e
      | .ok recs => .ok (rec :: recs)

/-! ## ZIP-family container extraction -/

/-- One member of an in-memory archive; `text` is its content after the
(total, hence not separately modelled) Latin-1 / ISO-8859-1 decode. -/
structure ZipEntry where
  name : String
  text : String
deriving DecidableEq, Repr

/-- An opened in-memory ZIP/KMZ archive (`zipfile.ZipFile`): the ordered
member list.  Byte-level malformed archives (`BadZipFile`) are outside the
model. -/
structure ZipArchive where
  entries : List ZipEntry
deriving DecidableEq, Repr

/-- The error taxonomy of the extraction step: `emptyContainer` models the
`ValueError("Empty KMZ archive")` raise, `missingMember` the
`ValueError("No TXT file found in ... ZIP archive")` raises. -/
inductive ExtractError where
  | emptyContainer
  | missingMember
deriving DecidableEq, Repr

/-- `DWDMosmixLSingleStationKMZParser._extract_kml`: an archive with no
entries fails; otherwise the first member is read and decoded. -/
def extract_kml (z : ZipArchive) : Except ExtractError String :=
  match z.entries with
  | [] => .error .emptyContainer
  | e :: _ => .ok e.text

/-- The TXT-extraction step shared by `DWDTenMinNowPercipitationParser.parse`
and `DWDTenMinNowTemperatureParser.parse`: filter the member names ending in
`".txt"` and fail when none match — note there is no separate empty-archive
check, so a zero-entry archive takes this same error path. -/
def extract_txt (z : ZipArchive) : Except ExtractError String :=
  match z.entries.filter (fun e => endsWithTxt e.name) with
  | [] => .error .missingMember
  | e :: _ => .ok e.text

/-! ## Delimited CSV parser (`csv.DictReader`, semicolon dialect) -/

/-- `skipinitialspace=True`: spaces immediately following a delimiter (and at
field start) are ignored. -/
def skipInitialSpace (f : String) : String :=
  String.mk (f.toList.dropWhile (fun c => c = ' '))

/-- The fields of one CSV line under the semicolon dialect with
`skipinitialspace` (the provider payloads carry no quoting). -/
def splitFields (line : String) : List String :=
  ((splitOnChar ';' line.toList).map String.mk).map skipInitialSpace

/-- Insertion with Python-dict semantics: an existing key keeps its position
and gets the new value; a new key is appended. -/
def dictInsert : List (String × Option String) → String → Option String →
    List (String × Option String)
  | [], k, v => [(k, v)]
  | (k0, v0) :: rest, k, v =>
      if k0 = k then (k0, v) :: rest else (k0, v0) :: dictInsert rest k v

def buildDictAux (acc : List (String × Option String)) :
    List String → List String → List (String × Option String)
  | [], _ => acc
  | n :: ns, [] => buildDictAux (dictInsert acc n none) ns []
  | n :: ns, v :: vs => buildDictAux (dictInsert acc n (some v)) ns vs

/-- The dict `csv.DictReader` builds for one data row:
`dict(zip(fieldnames, row))`, with fieldnames beyond the row's length bound
to `restval` (`None`). -/
def buildDict (names vals : List String) : List (String × Option String) :=
  buildDictAux [] names vals

/-- A row as `csv.DictReader` yields it: the string-keyed cells, plus the
`restkey` (`None`-keyed) entry holding any fields beyond the header's
length. -/
structure CsvRow where
  cells : List (String × Option String)
  extra : Option (List String)
deriving DecidableEq, Repr

/-- The header (`fieldnames`) `csv.DictReader` reads from a payload. -/
def csvFieldnames (content : String) : List String :=
  match (splitOnChar '\n' content.toList).map String.mk with
  | [] => []
  | headerLine :: _ => splitFields headerLine

/-- `csv.DictReader(io.StringIO(content), delimiter=";",
skipinitialspace=True)`: header line then one dict per non-blank data line
(blank lines yield an empty csv record, which `DictReader` skips). -/
def csvDictReaderRows (content : String) : List CsvRow :=
  match (splitOnChar '\n' content.toList).map String.mk with
  | [] => []
  | headerLine :: rest =>
    (rest.filter (fun l => l ≠ "")).map (fun line =>
      { cells := buildDict (splitFields headerLine) (splitFields line)
        extra :=
          if (splitFields headerLine).length < (splitFields line).length then
            some ((splitFields line).drop (splitFields headerLine).length)
          else none })

/-- Removal of a key from a dict (`row.pop(k)` guarded by `if k in row`). -/
def dictPop (d : List (String × Option String)) (k : String) :
    List (String × Option String) :=
  d.filter (fun kv => kv.1 ≠ k)

/-- The CSV stage of `DWDTenMinNowPercipitationParser.parse` (after ZIP
extraction and decoding): every row has only its `"eor"` end-of-record marker
removed. -/
def precipParseRows (content : String) : List CsvRow :=
  (csvDictReaderRows content).map (fun r => { r with cells := dictPop r.cells "eor" })

/-- The CSV stage of `DWDTenMinNowTemperatureParser.parse`: `"eor"` is
removed, then the comprehension `{k: v for k, v in row.items() if k}` keeps
only truthy keys — dropping the empty-string header key and the `None`
restkey entry. -/
def tempParseRows (content : String) : List CsvRow :=
  (csvDictReaderRows content).map (fun r =>
    { cells := (dictPop r.cells "eor").filter (fun kv => kv.1 ≠ ""), extra := none })

/-! ## Fixed-width station-catalog parser (`DWDMosmixLStationsParser`) -/

def gcbGo : List Char → Nat → Option Nat → List (Nat × Nat)
  | [], _, none => []
  | [], i, some s => [(s, i)]
  | c :: cs, i, none =>
      if c = '-' then gcbGo cs (i + 1) (some i) else gcbGo cs (i + 1) none
  | c :: cs, i, some s =>
      if c = ' ' then (s, i) :: gcbGo cs (i + 1) none else gcbGo cs (i + 1) (some s)

/-- `DWDMosmixLStationsParser._get_column_boundaries`: a dash run starts a
column at its first index; a space while inside a run closes it; a run still
open at the end of the line closes at `len(separator_line)`. -/
def get_column_boundaries (separator_line : String) : List (Nat × Nat) :=
  gcbGo separator_line.toList 0 none

/-- `DWDMosmixLStationsParser._parse_line`: slice the line at each `(start,
end)` boundary, falling back to the `line[start:]` remainder when the line
ends inside the span and to `""` when it ends at or before the start. -/
def parse_line (line : String) (boundaries : List (Nat × Nat)) : List String :=
  let cs := line.toList
  boundaries.map (fun se =>
    if cs.length ≥ se.2 then pyStrip (String.mk ((cs.take se.2).drop se.1))
    else if cs.length > se.1 then pyStrip (String.mk (cs.drop se.1))
    else "")

deriving instance DecidableEq for Except

/-! ## Claims -/

/-- C5: a delimited measurement row whose `STATIONS_ID` is the bare numeral
`"44"` is zero-padded to 5 digits before the context comparison, so
validation against the declared expected id `"00044"` succeeds — for both the
precipitation and the temperature measurement schema — and the resulting
record's `station_id` equals `"00044"`. -/
theorem C5_bare_numeral_id_zero_padded :
    process_station_data "44" (some "00044") = .ok "00044" ∧
    validatePrecipRow ⟨"44", "202401010000", "3", "10", "0.5", "1"⟩ (some "00044") =
      .ok ⟨"00044", ⟨1704067200, some 0⟩, 3, some 10, some (mkRat 1 2), some 1⟩ ∧
    validateTempRow ⟨"44", "202401010000", "3", "-999", "21.5", "20.9", "55.0", "12.1"⟩
        (some "00044") =
      .ok ⟨"00044", ⟨1704067200, some 0⟩, 3, none, some (mkRat 43 2), some (mkRat 209 10),
        some 55, some (mkRat 121 10)⟩ :=
  ⟨by decide, by decide, by decide⟩

/-- C3 counterexample: the sentinel test compares the stripped string against
the exact literal `"-999"`, so the alternative spelling `"-999.0"` of the
same number passes the float coercion and validates to numeric `-999` — the
claim's "never yields the numeric value -999" fails on this input. -/
theorem C3_float_sentinel_counterexample :
    handle_missing_float "-999.0" = .ok (some (-999 : ℚ)) ∧
    validatePrecipRow ⟨"44", "202401010000", "3", "10", "-999.0", "1"⟩ none =
      .ok ⟨"00044", ⟨1704067200, some 0⟩, 3, some 10, some (-999 : ℚ), some 1⟩ :=
  ⟨by decide, by decide⟩

/-- C3 (amended): on the `-999`-sentinel fields, validation yields the
absence marker exactly for inputs whose stripped value is the literal
`"-999"`; every other accepted input is a strict numeric parse of the raw
string (so other spellings of the number -999, such as `"-999.0"`, yield the
numeric value). -/
theorem C3_sentinel_absence_iff_literal (v : String) :
    (handle_missing_float v = .ok none ↔ pyStrip v = "-999") ∧
    (handle_missing_int v = .ok none ↔ pyStrip v = "-999") := by
  constructor
  · unfold handle_missing_float
    split
    · simp [*]
    · cases h : pyFloat v <;> simp_all
  · unfold handle_missing_int
    split
    · simp [*]
    · cases h : pyInt v <;> simp_all

/-- C7: the precipitation station catalog's schema declares no `YYYYMMDD`
parser for `von_datum`/`bis_datum` (unlike the temperature variant), so
pydantic reinterprets the 8-digit string `"20240101"` as a Unix epoch-seconds
timestamp: validation succeeds (the result is UTC, so `verify_utc` passes)
but the calendar date is 1970-08-23, not the written 2024-01-01.  The
temperature stations schema, whose `parse_station_date` the spec describes,
yields the written date. -/
theorem C7_precip_station_date_epoch_reinterpretation :
    precipStationParseDate "20240101" = .ok ⟨20240101, some 0⟩ ∧
    dateOf ⟨20240101, some 0⟩ = (1970, 8, 23) ∧
    ((1970 : Int), (8 : Int), (23 : Int)) ≠ ((2024 : Int), (1 : Int), (1 : Int)) ∧
    tempStationParseDate "20240101" = .ok ⟨1704067200, some 0⟩ ∧
    dateOf ⟨1704067200, some 0⟩ = (2024, 1, 1) :=
  ⟨by decide, by decide, by decide, by decide, by decide⟩

/-- C9 counterexample: a plain climate ZIP with zero entries does NOT fail
with the empty-container error — the code filters for `.txt` members first
and raises its missing-member error, which is a different error of the
taxonomy. -/
theorem C9_empty_plain_zip_counterexample :
    extract_txt ⟨[]⟩ = .error .missingMember ∧
    ExtractError.missingMember ≠ ExtractError.emptyContainer :=
  ⟨by decide, by decide⟩

/-- C9 (amended): a zero-entry KMZ fails with the empty-container error; a
zero-entry plain ZIP fails with the missing-member error (it has no `.txt`
member), as does a nonempty plain ZIP without `.txt` members; extraction
never returns a silent empty result — a successful plain-ZIP extraction
exhibits a `.txt` member and a successful KMZ extraction a nonempty
archive. -/
theorem C9_container_errors :
    (∀ z : ZipArchive, z.entries = [] → extract_kml z = .error .emptyContainer) ∧
    (∀ z : ZipArchive, z.entries = [] → extract_txt z = .error .missingMember) ∧
    (∀ z : ZipArchive, (∀ e ∈ z.entries, endsWithTxt e.name = false) →
      extract_txt z = .error .missingMember) ∧
    (∀ (z : ZipArchive) (t : String), extract_txt z = .ok t →
      ∃ e ∈ z.entries, endsWithTxt e.name = true ∧ e.text = t) ∧
    (∀ (z : ZipArchive) (t : String), extract_kml z = .ok t → z.entries ≠ []) := by
  refine ⟨?_, ?_, ?_, ?_, ?_⟩
  · intro z h
    simp [extract_kml, h]
  · intro z h
    simp [extract_txt, h]
  · intro z h
    have hf : z.entries.filter (fun e => endsWithTxt e.name) = [] := by
      simp only [List.filter_eq_nil_iff]
      intro e he
      simp [h e he]
    simp [extract_txt, hf]
  · intro z t h
    unfold extract_txt at h
    cases hf : z.entries.filter (fun e => endsWithTxt e.name) with
    | nil => rw [hf] at h; cases h
    | cons e rest =>
        rw [hf] at h
        cases h
        have he : e ∈ z.entries.filter (fun e => endsWithTxt e.name) := by
          rw [hf]; exact List.mem_cons_self e rest
        rcases List.mem_filter.mp he with ⟨hmem, hpred⟩
        exact ⟨e, hmem, hpred, rfl⟩
  · intro z t h hn
    rw [show z = ⟨z.entries⟩ from rfl, hn] at h
    cases h

/-- C9 witness: the amended statement at concrete archives — the empty KMZ,
a plain ZIP whose only member is a `.kml`, and a plain ZIP with a `.txt`
member. -/
theorem C9_container_errors_witness :
    extract_kml ⟨[]⟩ = .error .emptyContainer ∧
    extract_txt ⟨[⟨"a.kml", "k"⟩]⟩ = .error .missingMember ∧
    (∃ e ∈ (ZipArchive.mk [⟨"b.txt", "body"⟩]).entries,
      endsWithTxt e.name = true ∧ e.text = "body") := by
  refine ⟨C9_container_errors.1 ⟨[]⟩ rfl, ?_, ?_⟩
  · exact C9_container_errors.2.2.1 ⟨[⟨"a.kml", "k"⟩]⟩ (by decide)
  · exact C9_container_errors.2.2.2.1 ⟨[⟨"b.txt", "body"⟩]⟩ "body" (by decide)

/-- C6 counterexample: on a payload whose header carries an empty-string
column (trailing-delimiter artifact), the precipitation parser keeps the
empty-header column in every row — only the temperature parser drops it, so
the claim's "both delimited parsers drop ... every column whose header is the
empty string" fails. -/
theorem C6_precip_keeps_empty_header_counterexample :
    (precipParseRows "A;B;;eor\n1;2;3;x\n").map (fun r => r.cells) =
      [[("A", some "1"), ("B", some "2"), ("", some "3")]] ∧
    (tempParseRows "A;B;;eor\n1;2;3;x\n").map (fun r => r.cells) =
      [[("A", some "1"), ("B", some "2")]] ∧
    "" ∈ csvFieldnames "A;B;;eor\n1;2;3;x\n" :=
  ⟨by decide, by decide, by decide⟩


/-! Helper inversion lemmas shared by several claims. -/

theorem verify_utc_ok {msg : String} {d d2 : PyDatetime}
    (h : verify_utc msg d = .ok d2) : d2.tz = some 0 := by
  unfold verify_utc at h
  split at h
  · cases h
    assumption
  · cases h

theorem parse_timestamp_tz {s : String} {d : PyDatetime}
    (h : parse_timestamp s = some d) : d.tz = some 0 := by
  unfold parse_timestamp at h
  cases hs : strptime_YmdHM s <;> rw [hs] at h
  · cases h
  · cases h
    rfl

theorem parse_station_date_tz {s : String} {d : PyDatetime}
    (h : parse_station_date s = some d) : d.tz = some 0 := by
  unfold parse_station_date at h
  cases hs : strptime_Ymd (pyStrip s) <;> rw [hs] at h
  · cases h
  · cases h
    rfl

theorem precipStationParseDate_tz {s : String} {d : PyDatetime}
    (h : precipStationParseDate s = .ok d) : d.tz = some 0 := by
  unfold precipStationParseDate at h
  cases hs : pydantic_str_to_datetime s <;> rw [hs] at h
  · cases h
  · exact verify_utc_ok h

theorem tempStationParseDate_tz {s : String} {d : PyDatetime}
    (h : tempStationParseDate s = .ok d) : d.tz = some 0 := by
  unfold tempStationParseDate at h
  cases hs : parse_station_date s <;> rw [hs] at h
  · cases h
  · exact verify_utc_ok h

theorem process_station_data_ok {sid : String} {ctx : Option String} {padded : String}
    (h : process_station_data sid ctx = .ok padded) : padded = zfill sid 5 := by
  unfold process_station_data at h
  cases ctx with
  | none =>
      cases h
      rfl
  | some e =>
      simp only [] at h
      split at h
      · cases h
      · cases h
        rfl

theorem validatePrecipRow_ok {row : PrecipRow} {ctx : Option String} {rec : PrecipRecord}
    (h : validatePrecipRow row ctx = .ok rec) :
    rec.station_id = zfill row.STATIONS_ID 5 ∧ rec.timestamp.tz = some 0 := by
  unfold validatePrecipRow at h
  cases h1 : process_station_data row.STATIONS_ID ctx <;> rw [h1] at h
  case error => cases h
  case ok sid =>
  cases h2 : parse_timestamp row.MESS_DATUM <;> rw [h2] at h
  case none => cases h
  case some ts =>
  cases h3 : pyInt row.QN <;> rw [h3] at h
  case none => cases h
  case some qn =>
  cases h4 : handle_missing_int row.RWS_DAU_10 <;> rw [h4] at h
  case error => cases h
  case ok dur =>
  cases h5 : handle_missing_float row.RWS_10 <;> rw [h5] at h
  case error => cases h
  case ok amt =>
  cases h6 : handle_missing_int row.RWS_IND_10 <;> rw [h6] at h
  case error => cases h
  case ok idx =>
  cases h
  exact ⟨process_station_data_ok h1, parse_timestamp_tz h2⟩

theorem validateTempRow_ok {row : TempRow} {ctx : Option String} {rec : TempRecord}
    (h : validateTempRow row ctx = .ok rec) :
    rec.station_id = zfill row.STATIONS_ID 5 ∧ rec.timestamp.tz = some 0 := by
  unfold validateTempRow at h
  cases h1 : process_station_data row.STATIONS_ID ctx <;> rw [h1] at h
  case error => cases h
  case ok sid =>
  cases h2 : parse_timestamp row.MESS_DATUM <;> rw [h2] at h
  case none => cases h
  case some ts =>
  cases h3 : pyInt row.QN <;> rw [h3] at h
  case none => cases h
  case some qn =>
  cases h4 : handle_missing_float row.PP_10 <;> rw [h4] at h
  case error => cases h
  case ok pp =>
  cases h5 : handle_missing_float row.TT_10 <;> rw [h5] at h
  case error => cases h
  case ok tt =>
  cases h6 : handle_missing_float row.TM5_10 <;> rw [h6] at h
  case error => cases h
  case ok tm5 =>
  cases h7 : handle_missing_float row.RF_10 <;> rw [h7] at h
  case error => cases h
  case ok rf =>
  cases h8 : handle_missing_float row.TD_10 <;> rw [h8] at h
  case error => cases h
  case ok td =>
  cases h
  exact ⟨process_station_data_ok h1, parse_timestamp_tz h2⟩

theorem validateMosmixRow_ok {row : MosmixRawRow} {ctx : Option String} {rec : MosmixRecord}
    (h : validateMosmixRow row ctx = .ok rec) :
    rec.issue_time.tz = some 0 ∧ rec.timestamp.tz = some 0 := by
  unfold validateMosmixRow at h
  cases h1 : fromisoformat (replaceZ row.issue_time) with
  | none => rw [h1] at h; cases h
  | some it =>
  rw [h1] at h
  simp only [] at h
  cases h2 : fromisoformat (replaceZ row.timestamp) with
  | none => rw [h2] at h; cases h
  | some ts =>
  rw [h2] at h
  simp only [] at h
  cases ctx with
  | none => cases h
  | some sid =>
  simp only [] at h
  cases h3 : verify_utc "DWD MOSMIX timestamp must be in UTC" it with
  | error e => rw [h3] at h; cases h
  | ok it2 =>
  rw [h3] at h
  simp only [] at h
  cases h4 : verify_utc "DWD MOSMIX timestamp must be in UTC" ts with
  | error e => rw [h4] at h; cases h
  | ok ts2 =>
  rw [h4] at h
  simp only [] at h
  cases h5 : mosmixFloatField row.RR1c with
  | error e => rw [h5] at h; cases h
  | ok r1 =>
  rw [h5] at h
  simp only [] at h
  cases h6 : mosmixFloatField row.RR3c with
  | error e => rw [h6] at h; cases h
  | ok r3 =>
  rw [h6] at h
  simp only [] at h
  cases h7 : mosmixFloatField row.TTT with
  | error e => rw [h7] at h; cases h
  | ok t =>
  rw [h7] at h
  simp only [] at h
  cases h
  exact ⟨verify_utc_ok h3, verify_utc_ok h4⟩

/-- C1: the UTC invariant across all validators — Pegelonline's
`convert_to_utc` turns any offset-aware timestamp into a UTC-aware one; the
DWD `verify_utc` validators accept a datetime exactly when it is UTC (so a
declared-UTC field that is not UTC fails validation); the measurement
`parse_timestamp` and station `parse_station_date` parsers always attach
UTC; and every record any DWD row validator returns carries only UTC-aware
timestamps. -/
theorem C1_utc_invariant :
    (∀ (d : PyDatetime) (o : Int), d.tz = some o →
      ∃ d2, convert_to_utc d = some d2 ∧ d2.tz = some 0) ∧
    (∀ (msg : String) (d d2 : PyDatetime), verify_utc msg d = .ok d2 → d2.tz = some 0) ∧
    (∀ (msg : String) (d : PyDatetime), d.tz ≠ some 0 → verify_utc msg d = .error msg) ∧
    (∀ (s : String) (d : PyDatetime), parse_timestamp s = some d → d.tz = some 0) ∧
    (∀ (s : String) (d : PyDatetime), parse_station_date s = some d → d.tz = some 0) ∧
    (∀ (s : String) (d : PyDatetime), precipStationParseDate s = .ok d → d.tz = some 0) ∧
    (∀ (s : String) (d : PyDatetime), tempStationParseDate s = .ok d → d.tz = some 0) ∧
    (∀ (row : MosmixRawRow) (ctx : Option String) (rec : MosmixRecord),
      validateMosmixRow row ctx = .ok rec →
      rec.issue_time.tz = some 0 ∧ rec.timestamp.tz = some 0) ∧
    (∀ (row : PrecipRow) (ctx : Option String) (rec : PrecipRecord),
      validatePrecipRow row ctx = .ok rec → rec.timestamp.tz = some 0) ∧
    (∀ (row : TempRow) (ctx : Option String) (rec : TempRecord),
      validateTempRow row ctx = .ok rec → rec.timestamp.tz = some 0) := by
  refine ⟨?_, ?_, ?_, ?_, ?_, ?_, ?_, ?_, ?_, ?_⟩
  · intro d o hd
    exact ⟨⟨d.wall - o, some 0⟩, by simp [convert_to_utc, hd], rfl⟩
  · intro msg d d2 h
    exact verify_utc_ok h
  · intro msg d h
    unfold verify_utc
    simp [h]
  · intro s d h
    exact parse_timestamp_tz h
  · intro s d h
    exact parse_station_date_tz h
  · intro s d h
    exact precipStationParseDate_tz h
  · intro s d h
    exact tempStationParseDate_tz h
  · intro row ctx rec h
    exact validateMosmixRow_ok h
  · intro row ctx rec h
    exact (validatePrecipRow_ok h).2
  · intro row ctx rec h
    exact (validateTempRow_ok h).2

/-- C1 witness: the invariant applied at concrete inputs — a +01:00-aware
timestamp converted by Pegelonline's validator, a UTC and a non-UTC datetime
through `verify_utc`, the DWD string parsers on provider-shaped literals,
and one concrete row through each of the three DWD row validators. -/
theorem C1_utc_invariant_witness :
    (∃ d2, convert_to_utc ⟨3600, some 3600⟩ = some d2 ∧ d2.tz = some 0) ∧
    (PyDatetime.mk 0 (some 0)).tz = some 0 ∧
    verify_utc "m" ⟨0, some 60⟩ = .error "m" ∧
    (PyDatetime.mk 1704067200 (some 0)).tz = some 0 ∧
    (PyDatetime.mk 1704067200 (some 0)).tz = some 0 ∧
    (PyDatetime.mk 20240101 (some 0)).tz = some 0 ∧
    (PyDatetime.mk 1704067200 (some 0)).tz = some 0 ∧
    ((MosmixRecord.mk "10147" ⟨1704067200, some 0⟩ ⟨1704070800, some 0⟩
        (some (mkRat 1 10)) none (some 270)).issue_time.tz = some 0 ∧
      (MosmixRecord.mk "10147" ⟨1704067200, some 0⟩ ⟨1704070800, some 0⟩
        (some (mkRat 1 10)) none (some 270)).timestamp.tz = some 0) ∧
    (PrecipRecord.mk "00044" ⟨1704067200, some 0⟩ 3 (some 10) (some (mkRat 1 2))
      (some 1)).timestamp.tz = some 0 ∧
    (TempRecord.mk "00044" ⟨1704067200, some 0⟩ 3 none (some (mkRat 43 2))
      (some (mkRat 209 10)) (some 55) (some (mkRat 121 10))).timestamp.tz = some 0 := by
  refine ⟨C1_utc_invariant.1 ⟨3600, some 3600⟩ 3600 rfl,
    C1_utc_invariant.2.1 "m" ⟨0, some 0⟩ ⟨0, some 0⟩ (by decide),
    C1_utc_invariant.2.2.1 "m" ⟨0, some 60⟩ (by decide),
    C1_utc_invariant.2.2.2.1 "202401010000" ⟨1704067200, some 0⟩ (by decide),
    C1_utc_invariant.2.2.2.2.1 "20240101" ⟨1704067200, some 0⟩ (by decide),
    C1_utc_invariant.2.2.2.2.2.1 "20240101" ⟨20240101, some 0⟩ (by decide),
    C1_utc_invariant.2.2.2.2.2.2.1 "20240101" ⟨1704067200, some 0⟩ (by decide),
    C1_utc_invariant.2.2.2.2.2.2.2.1
      ⟨"2024-01-01T00:00:00Z", "2024-01-01T01:00:00Z", "0.1", "-", "270.0"⟩
      (some "10147") _ (by decide),
    C1_utc_invariant.2.2.2.2.2.2.2.2.1
      ⟨"44", "202401010000", "3", "10", "0.5", "1"⟩ (some "00044") _ (by decide),
    C1_utc_invariant.2.2.2.2.2.2.2.2.2
      ⟨"44", "202401010000", "3", "-999", "21.5", "20.9", "55.0", "12.1"⟩
      (some "00044") _ (by decide)⟩

/-- C4: when a non-empty expected station id is supplied as validation
context and the row's embedded id, after zero-padding, differs from it, both
measurement validators fail with an error naming the mismatch; and whenever
validation succeeds, the record's `station_id` is the zero-padded row id —
never the context value. -/
theorem C4_station_id_mismatch_fails :
    (∀ (sid expected : String), expected ≠ "" → zfill sid 5 ≠ expected →
      process_station_data sid (some expected) =
        .error ("Station ID mismatch: expected " ++ expected ++ ", got " ++ zfill sid 5)) ∧
    (∀ (row : PrecipRow) (expected : String), expected ≠ "" →
      zfill row.STATIONS_ID 5 ≠ expected →
      validatePrecipRow row (some expected) =
        .error ("Station ID mismatch: expected " ++ expected ++ ", got " ++
          zfill row.STATIONS_ID 5)) ∧
    (∀ (row : TempRow) (expected : String), expected ≠ "" →
      zfill row.STATIONS_ID 5 ≠ expected →
      validateTempRow row (some expected) =
        .error ("Station ID mismatch: expected " ++ expected ++ ", got " ++
          zfill row.STATIONS_ID 5)) ∧
    (∀ (row : PrecipRow) (ctx : Option String) (rec : PrecipRecord),
      validatePrecipRow row ctx = .ok rec → rec.station_id = zfill row.STATIONS_ID 5) ∧
    (∀ (row : TempRow) (ctx : Option String) (rec : TempRecord),
      validateTempRow row ctx = .ok rec → rec.station_id = zfill row.STATIONS_ID 5) := by
  have hmm : ∀ (sid expected : String), expected ≠ "" → zfill sid 5 ≠ expected →
      process_station_data sid (some expected) =
        .error ("Station ID mismatch: expected " ++ expected ++ ", got " ++ zfill sid 5) := by
    intro sid expected h1 h2
    unfold process_station_data
    simp [h1, h2]
  refine ⟨hmm, ?_, ?_, ?_, ?_⟩
  · intro row expected h1 h2
    unfold validatePrecipRow
    rw [hmm row.STATIONS_ID expected h1 h2]
  · intro row expected h1 h2
    unfold validateTempRow
    rw [hmm row.STATIONS_ID expected h1 h2]
  · intro row ctx rec h
    exact (validatePrecipRow_ok h).1
  · intro row ctx rec h
    exact (validateTempRow_ok h).1

/-- C4 witness: the mismatch failure and the no-substitution conclusion at a
concrete row with embedded id `"44"` and expected id `"00099"` (and, for the
success case, `"00044"`). -/
theorem C4_station_id_mismatch_fails_witness :
    process_station_data "44" (some "00099") =
      .error ("Station ID mismatch: expected " ++ "00099" ++ ", got " ++ zfill "44" 5) ∧
    validatePrecipRow ⟨"44", "202401010000", "3", "10", "0.5", "1"⟩ (some "00099") =
      .error ("Station ID mismatch: expected " ++ "00099" ++ ", got " ++ zfill "44" 5) ∧
    validateTempRow ⟨"44", "202401010000", "3", "-999", "21.5", "20.9", "55.0", "12.1"⟩
        (some "00099") =
      .error ("Station ID mismatch: expected " ++ "00099" ++ ", got " ++ zfill "44" 5) ∧
    (PrecipRecord.mk "00044" ⟨1704067200, some 0⟩ 3 (some 10) (some (mkRat 1 2))
      (some 1)).station_id = zfill "44" 5 := by
  refine ⟨C4_station_id_mismatch_fails.1 "44" "00099" (by decide) (by decide),
    C4_station_id_mismatch_fails.2.1 _ "00099" (by decide) (by decide),
    C4_station_id_mismatch_fails.2.2.1 _ "00099" (by decide) (by decide),
    C4_station_id_mismatch_fails.2.2.2.1
      ⟨"44", "202401010000", "3", "10", "0.5", "1"⟩ (some "00044") _ (by decide)⟩

theorem zip4_length (as2 : List α) (bs : List β) (cs : List γ) (ds : List δ) :
    (zip4 as2 bs cs ds).length =
      min (min (min as2.length bs.length) cs.length) ds.length := by
  induction as2 generalizing bs cs ds with
  | nil => simp [zip4]
  | cons a ta ih =>
    cases bs with
    | nil => simp [zip4]
    | cons b tb =>
      cases cs with
      | nil => simp [zip4]
      | cons c tc =>
        cases ds with
        | nil => simp [zip4]
        | cons d td =>
          simp only [zip4, List.length_cons, ih]
          omega

/-- The length a parameter contributes to the zip: its own value count when
present, the timestamp count when backfilled. -/
def presentLen (o : Option (List String)) (d : Nat) : Nat :=
  match o with
  | some l => l.length
  | none => d

/-- C10: `_create_json_structure` emits exactly
min(#timestamps, length of each present parameter's value list) records —
a parameter list shorter than the timestamp list silently truncates the
output (absent parameters are backfilled to full length and impose no
bound). -/
theorem C10_zip_truncation (it : String) (ts : List String) (f : MosmixForecastValues) :
    (create_json_structure it ts f).length =
      min ts.length (min (presentLen f.RR1c ts.length)
        (min (presentLen f.RR3c ts.length) (presentLen f.TTT ts.length))) := by
  rcases f with ⟨r1, r3, t⟩
  cases r1 <;> cases r3 <;> cases t <;>
    simp [create_json_structure, zip4_length, presentLen] <;> omega

/-- The lower bound all starts emitted by `gcbGo` respect: the open run's
start when inside a run, the current index otherwise. -/
def stLow (st : Option Nat) (i : Nat) : Nat :=
  match st with
  | some s => s
  | none => i

theorem gcbGo_bound (cs : List Char) (i : Nat) (st : Option Nat)
    (hst : ∀ s, st = some s → s ≤ i) :
    (∀ p ∈ gcbGo cs i st, stLow st i ≤ p.1) ∧
      (gcbGo cs i st).Pairwise (fun a b => a.1 ≤ b.1) := by
  induction cs generalizing i st with
  | nil =>
    cases st with
    | none => simp [gcbGo]
    | some s => simp [gcbGo, stLow]
  | cons c t ih =>
    cases st with
    | none =>
      by_cases hc : c = '-'
      · have ihr := ih (i + 1) (some i) (fun s hs => by cases hs; omega)
        refine ⟨?_, by simpa [gcbGo, hc] using ihr.2⟩
        intro p hp
        have hb := ihr.1 p (by simpa [gcbGo, hc] using hp)
        simp only [stLow] at hb ⊢
        omega
      · have ihr := ih (i + 1) none (fun s hs => by cases hs)
        refine ⟨?_, by simpa [gcbGo, hc] using ihr.2⟩
        intro p hp
        have hb := ihr.1 p (by simpa [gcbGo, hc] using hp)
        simp only [stLow] at hb ⊢
        omega
    | some s =>
      have hsi : s ≤ i := hst s rfl
      by_cases hc : c = ' '
      · have ihr := ih (i + 1) none (fun s2 hs => by cases hs)
        constructor
        · intro p hp
          rcases (by simpa [gcbGo, hc] using hp : p = (s, i) ∨ p ∈ gcbGo t (i + 1) none) with
            h | h
          · simp [h, stLow]
          · have hb := ihr.1 p h
            simp only [stLow] at hb ⊢
            omega
        · rw [show gcbGo (c :: t) i (some s) = (s, i) :: gcbGo t (i + 1) none by
            simp [gcbGo, hc]]
          rw [List.pairwise_cons]
          refine ⟨?_, ihr.2⟩
          intro p hp
          have hb := ihr.1 p hp
          simp only [stLow] at hb
          omega
      · have ihr := ih (i + 1) (some s) (fun s2 hs => by cases hs; omega)
        refine ⟨?_, by simpa [gcbGo, hc] using ihr.2⟩
        intro p hp
        have hb := ihr.1 p (by simpa [gcbGo, hc] using hp)
        simp only [stLow] at hb ⊢
        omega

theorem get_column_boundaries_mono (sep : String) :
    (get_column_boundaries sep).Pairwise (fun a b => a.1 ≤ b.1) :=
  (gcbGo_bound sep.toList 0 none (fun s hs => by cases hs)).2

theorem parse_line_get_short {line : String} {bs : List (Nat × Nat)} {i s e : Nat}
    (hget : bs.get? i = some (s, e)) (hlen : line.toList.length ≤ s) :
    (parse_line line bs).get? i = some "" := by
  unfold parse_line
  rw [List.get?_map, hget]
  simp only [Option.map_some']
  congr 1
  split
  · rename_i hbig
    have hnil : (line.toList.take e).drop s = [] :=
      List.drop_eq_nil_of_le (by simp only [List.length_take]; omega)
    rw [hnil]
    rfl
  · split
    · omega
    · rfl

theorem parse_line_get_remainder {line : String} {bs : List (Nat × Nat)} {i s e : Nat}
    (hget : bs.get? i = some (s, e)) (h1 : s < line.toList.length)
    (h2 : line.toList.length < e) :
    (parse_line line bs).get? i = some (pyStrip (String.mk (line.toList.drop s))) := by
  unfold parse_line
  rw [List.get?_map, hget]
  simp only [Option.map_some']
  congr 1
  split
  · omega
  · rfl

/-- C8: fixed-width line slicing is total — for every boundary list the
result has one cell per column with no index error; a line ending at or
before a column's start yields `""` there (and, for the sorted boundary
lists `_get_column_boundaries` produces, for every later column as well);
a line ending strictly inside a column's span yields the stripped
`line[start:]` remainder. -/
theorem C8_parse_line_total :
    (∀ (line : String) (bs : List (Nat × Nat)), (parse_line line bs).length = bs.length) ∧
    (∀ (line : String) (bs : List (Nat × Nat)) (i s e : Nat),
      bs.get? i = some (s, e) → line.toList.length ≤ s →
      (parse_line line bs).get? i = some "") ∧
    (∀ (line : String) (bs : List (Nat × Nat)) (i s e : Nat),
      bs.get? i = some (s, e) → s < line.toList.length → line.toList.length < e →
      (parse_line line bs).get? i = some (pyStrip (String.mk (line.toList.drop s)))) ∧
    (∀ (sep line : String) (i j s e s2 e2 : Nat), i ≤ j →
      (get_column_boundaries sep).get? i = some (s, e) →
      (get_column_boundaries sep).get? j = some (s2, e2) →
      line.toList.length ≤ s →
      (parse_line line (get_column_boundaries sep)).get? j = some "") := by
  refine ⟨?_, ?_, ?_, ?_⟩
  · intro line bs
    simp [parse_line]
  · intro line bs i s e hget hlen
    exact parse_line_get_short hget hlen
  · intro line bs i s e hget h1 h2
    exact parse_line_get_remainder hget h1 h2
  · intro sep line i j s e s2 e2 hij hi hj hlen
    rcases lt_or_eq_of_le hij with hlt | heq
    · rcases List.get?_eq_some.mp hi with ⟨hi2, hgi⟩
      rcases List.get?_eq_some.mp hj with ⟨hj2, hgj⟩
      have hmono := List.pairwise_iff_get.mp (get_column_boundaries_mono sep)
        ⟨i, hi2⟩ ⟨j, hj2⟩ hlt
      rw [hgi, hgj] at hmono
      exact parse_line_get_short hj (by omega)
    · subst heq
      rw [hi] at hj
      cases hj
      exact parse_line_get_short hi hlen

/-- C8 witness: slicing applied at concrete lines and boundary lists — a
3-column list against a 2-character line, a line ending inside a span, and
the boundaries read off a concrete separator line. -/
theorem C8_parse_line_total_witness :
    (parse_line "ab" [(0, 2), (5, 8), (10, 12)]).length = [(0, 2), (5, 8), (10, 12)].length ∧
    (parse_line "ab" [(0, 2), (5, 8), (10, 12)]).get? 1 = some "" ∧
    (parse_line "abcd" [(0, 2), (2, 8)]).get? 1 =
      some (pyStrip (String.mk ("abcd".toList.drop 2))) ∧
    (parse_line "ab" (get_column_boundaries "-- --- --")).get? 2 = some "" := by
  refine ⟨C8_parse_line_total.1 "ab" _,
    C8_parse_line_total.2.1 "ab" _ 1 5 8 (by decide) (by decide),
    C8_parse_line_total.2.2.1 "abcd" _ 1 2 8 (by decide) (by decide) (by decide),
    C8_parse_line_total.2.2.2 "-- --- --" "ab" 1 2 3 6 7 9 (by omega) (by decide) (by decide)
      (by decide)⟩

theorem validateMosmixRows_cons_ok {r : MosmixRawRow} {rows : List MosmixRawRow}
    {rec : MosmixRecord} {recs : List MosmixRecord} {ctx : Option String}
    (h1 : validateMosmixRow r ctx = .ok rec)
    (h2 : validateMosmixRows rows ctx = .ok recs) :
    validateMosmixRows (r :: rows) ctx = .ok (rec :: recs) := by
  unfold validateMosmixRows
  rw [h1]
  simp only []
  rw [h2]

theorem validateMosmixRow_eval {its tss v1 v2 v3 sid : String} {itd tsd : PyDatetime}
    {x y z : Option ℚ}
    (hit : fromisoformat (replaceZ its) = some itd) (hitz : itd.tz = some 0)
    (hts : fromisoformat (replaceZ tss) = some tsd) (htsz : tsd.tz = some 0)
    (h1 : mosmixFloatField v1 = .ok x) (h2 : mosmixFloatField v2 = .ok y)
    (h3 : mosmixFloatField v3 = .ok z) :
    validateMosmixRow ⟨its, tss, v1, v2, v3⟩ (some sid) = .ok ⟨sid, itd, tsd, x, y, z⟩ := by
  unfold validateMosmixRow
  try simp only []
  rw [hit]
  try simp only []
  rw [hts]
  try simp only []
  rw [show verify_utc "DWD MOSMIX timestamp must be in UTC" itd = .ok itd from by
    simp [verify_utc, hitz]]
  try simp only []
  rw [show verify_utc "DWD MOSMIX timestamp must be in UTC" tsd = .ok tsd from by
    simp [verify_utc, htsz]]
  try simp only []
  rw [h1]
  try simp only []
  rw [h2]
  try simp only []
  rw [h3]

/-- The three forecast timestamps of the C2 scenario. -/
def c2Timestamps : List String :=
  ["2024-01-01T01:00:00Z", "2024-01-01T02:00:00Z", "2024-01-01T03:00:00Z"]

/-- "any other allow-listed parameter carrying 3 values or absent": absent
from the KML, or present with exactly three values the float field validator
accepts. -/
def c2OkParam (o : Option (List String)) : Prop :=
  o = none ∨ ∃ a b c, o = some [a, b, c] ∧
    (∃ x, mosmixFloatField a = .ok x) ∧ (∃ y, mosmixFloatField b = .ok y) ∧
    (∃ z, mosmixFloatField c = .ok z)

theorem c2OkParam_elim {o : Option (List String)} (h : c2OkParam o) :
    ∃ v1 v2 v3 y1 y2 y3, o.getD (List.replicate 3 "-") = [v1, v2, v3] ∧
      mosmixFloatField v1 = .ok y1 ∧ mosmixFloatField v2 = .ok y2 ∧
      mosmixFloatField v3 = .ok y3 ∧
      (o = none → y1 = none ∧ y2 = none ∧ y3 = none) := by
  rcases h with rfl | ⟨a, b, c, rfl, ⟨x, hx⟩, ⟨y, hy⟩, ⟨z, hz⟩⟩
  · exact ⟨"-", "-", "-", none, none, none, rfl, rfl, rfl, rfl, fun _ => ⟨rfl, rfl, rfl⟩⟩
  · exact ⟨a, b, c, x, y, z, rfl, hx, hy, hz, fun h => Option.noConfusion h⟩

/-- C2: the KMZ scenario — issue time `2024-01-01T00:00:00Z`, exactly 3
timestamps, RR1c split to `["0.1", "0.2", "-"]`, every other allow-listed
parameter absent or carrying 3 acceptable values.  Parsing yields exactly 3
records whose third raw RR1c cell is the string `"-"`; validation succeeds
with 3 records whose third RR1c field is the absence marker `none` (by
typing it can be neither the float `0.0` nor the string `"-"`); and a wholly
absent parameter is backfilled to the absence marker in all 3 records. -/
theorem C2_kmz_scenario (f : MosmixForecastValues)
    (h1 : f.RR1c = some ["0.1", "0.2", "-"])
    (h3 : c2OkParam f.RR3c) (ht : c2OkParam f.TTT) :
    (create_json_structure "2024-01-01T00:00:00Z" c2Timestamps f).length = 3 ∧
    ((create_json_structure "2024-01-01T00:00:00Z" c2Timestamps f).get? 2).map
      (fun r => r.RR1c) = some "-" ∧
    ∃ recs, validateMosmixRows (create_json_structure "2024-01-01T00:00:00Z" c2Timestamps f)
        (some "10147") = .ok recs ∧
      recs.length = 3 ∧
      (recs.get? 2).map (fun r => r.RR1c) = some none ∧
      (f.RR3c = none → ∀ r ∈ recs, r.RR3c = none) ∧
      (f.TTT = none → ∀ r ∈ recs, r.TTT = none) := by
  rcases f with ⟨r1, r3, t⟩
  have h1' : r1 = some ["0.1", "0.2", "-"] := h1
  subst h1'
  rcases c2OkParam_elim h3 with ⟨b1, b2, b3, y1, y2, y3, hbeq, hb1, hb2, hb3, hbnone⟩
  rcases c2OkParam_elim ht with ⟨d1, d2, d3, z1, z2, z3, hdeq, hd1, hd2, hd3, hdnone⟩
  have hbeq' : (MosmixForecastValues.mk (some ["0.1", "0.2", "-"]) r3 t).RR3c.getD
      (List.replicate c2Timestamps.length "-") = [b1, b2, b3] := hbeq
  have hdeq' : (MosmixForecastValues.mk (some ["0.1", "0.2", "-"]) r3 t).TTT.getD
      (List.replicate c2Timestamps.length "-") = [d1, d2, d3] := hdeq
  have hraw : create_json_structure "2024-01-01T00:00:00Z" c2Timestamps
      ⟨some ["0.1", "0.2", "-"], r3, t⟩ =
      [⟨"2024-01-01T00:00:00Z", "2024-01-01T01:00:00Z", "0.1", b1, d1⟩,
       ⟨"2024-01-01T00:00:00Z", "2024-01-01T02:00:00Z", "0.2", b2, d2⟩,
       ⟨"2024-01-01T00:00:00Z", "2024-01-01T03:00:00Z", "-", b3, d3⟩] := by
    unfold create_json_structure
    rw [hbeq', hdeq']
    rfl
  have e1 : validateMosmixRow
      ⟨"2024-01-01T00:00:00Z", "2024-01-01T01:00:00Z", "0.1", b1, d1⟩ (some "10147") =
      .ok ⟨"10147", ⟨1704067200, some 0⟩, ⟨1704070800, some 0⟩, some (mkRat 1 10), y1, z1⟩ :=
    validateMosmixRow_eval (by decide) (by decide) (by decide) (by decide) (by decide) hb1 hd1
  have e2 : validateMosmixRow
      ⟨"2024-01-01T00:00:00Z", "2024-01-01T02:00:00Z", "0.2", b2, d2⟩ (some "10147") =
      .ok ⟨"10147", ⟨1704067200, some 0⟩, ⟨1704074400, some 0⟩, some (mkRat 1 5), y2, z2⟩ :=
    validateMosmixRow_eval (by decide) (by decide) (by decide) (by decide) (by decide) hb2 hd2
  have e3 : validateMosmixRow
      ⟨"2024-01-01T00:00:00Z", "2024-01-01T03:00:00Z", "-", b3, d3⟩ (some "10147") =
      .ok ⟨"10147", ⟨1704067200, some 0⟩, ⟨1704078000, some 0⟩, none, y3, z3⟩ :=
    validateMosmixRow_eval (by decide) (by decide) (by decide) (by decide) (by decide) hb3 hd3
  have hrows := validateMosmixRows_cons_ok e1
    (validateMosmixRows_cons_ok e2 (validateMosmixRows_cons_ok e3 (by rfl : validateMosmixRows [] (some "10147") = .ok [])))
  refine ⟨by rw [hraw]; rfl, by rw [hraw]; rfl,
    ⟨[⟨"10147", ⟨1704067200, some 0⟩, ⟨1704070800, some 0⟩, some (mkRat 1 10), y1, z1⟩,
      ⟨"10147", ⟨1704067200, some 0⟩, ⟨1704074400, some 0⟩, some (mkRat 1 5), y2, z2⟩,
      ⟨"10147", ⟨1704067200, some 0⟩, ⟨1704078000, some 0⟩, none, y3, z3⟩],
      by rw [hraw]; exact hrows,
      rfl, rfl, ?_, ?_⟩⟩
  · intro hn r hr
    obtain ⟨n1, n2, n3⟩ := hbnone hn
    subst n1
    subst n2
    subst n3
    simp only [List.mem_cons, List.not_mem_nil, or_false] at hr
    rcases hr with rfl | rfl | rfl <;> rfl
  · intro hn r hr
    obtain ⟨n1, n2, n3⟩ := hdnone hn
    subst n1
    subst n2
    subst n3
    simp only [List.mem_cons, List.not_mem_nil, or_false] at hr
    rcases hr with rfl | rfl | rfl <;> rfl

/-- C2 witness: the scenario at the concrete forecast dict with RR1c
`"0.1 0.2 -"`, RR3c wholly absent, and TTT carrying three values. -/
theorem C2_kmz_scenario_witness :
    (create_json_structure "2024-01-01T00:00:00Z" c2Timestamps
        ⟨some ["0.1", "0.2", "-"], none, some ["270.0", "271.5", "-"]⟩).length = 3 ∧
    ((create_json_structure "2024-01-01T00:00:00Z" c2Timestamps
        ⟨some ["0.1", "0.2", "-"], none, some ["270.0", "271.5", "-"]⟩).get? 2).map
      (fun r => r.RR1c) = some "-" ∧
    ∃ recs, validateMosmixRows (create_json_structure "2024-01-01T00:00:00Z" c2Timestamps
        ⟨some ["0.1", "0.2", "-"], none, some ["270.0", "271.5", "-"]⟩)
        (some "10147") = .ok recs ∧
      recs.length = 3 ∧
      (recs.get? 2).map (fun r => r.RR1c) = some none ∧
      ((MosmixForecastValues.mk (some ["0.1", "0.2", "-"]) none
          (some ["270.0", "271.5", "-"])).RR3c = none → ∀ r ∈ recs, r.RR3c = none) ∧
      ((MosmixForecastValues.mk (some ["0.1", "0.2", "-"]) none
          (some ["270.0", "271.5", "-"])).TTT = none → ∀ r ∈ recs, r.TTT = none) :=
  C2_kmz_scenario ⟨some ["0.1", "0.2", "-"], none, some ["270.0", "271.5", "-"]⟩ rfl
    (Or.inl rfl)
    (Or.inr ⟨"270.0", "271.5", "-", rfl, ⟨some 270, by decide⟩,
      ⟨some (mkRat 543 2), by decide⟩, ⟨none, by decide⟩⟩)

/-- The keys of a modelled Python dict, in insertion order. -/
def dictKeys (d : List (String × Option String)) : List String :=
  d.map Prod.fst

theorem mem_dictKeys_insert {d : List (String × Option String)} {k k2 : String}
    {v : Option String} :
    k2 ∈ dictKeys (dictInsert d k v) ↔ k2 ∈ dictKeys d ∨ k2 = k := by
  induction d with
  | nil => simp [dictInsert, dictKeys]
  | cons p rest ih =>
    rcases p with ⟨k0, v0⟩
    by_cases hp : k0 = k
    · subst hp
      simp [dictInsert, dictKeys, List.mem_cons]
      tauto
    · simp [dictInsert, hp, dictKeys, List.mem_cons] at ih ⊢
      tauto

theorem mem_dictKeys_buildDictAux {ns : List String} :
    ∀ {vs : List String} {acc : List (String × Option String)} {k : String},
    k ∈ dictKeys (buildDictAux acc ns vs) ↔ k ∈ dictKeys acc ∨ k ∈ ns := by
  induction ns with
  | nil => intro vs acc k; simp [buildDictAux]
  | cons n nt ih =>
    intro vs acc k
    cases vs with
    | nil =>
      simp only [buildDictAux]
      rw [ih, mem_dictKeys_insert]
      simp [List.mem_cons]
      tauto
    | cons v vt =>
      simp only [buildDictAux]
      rw [ih, mem_dictKeys_insert]
      simp [List.mem_cons]
      tauto

theorem mem_dictKeys_buildDict {ns vs : List String} {k : String} :
    k ∈ dictKeys (buildDict ns vs) ↔ k ∈ ns := by
  unfold buildDict
  rw [mem_dictKeys_buildDictAux]
  simp [dictKeys]

theorem exists_pair_of_mem_dictKeys {d : List (String × Option String)} {k : String}
    (h : k ∈ dictKeys d) : ∃ v, (k, v) ∈ d := by
  rcases List.mem_map.mp h with ⟨⟨k0, v0⟩, hp, heq⟩
  exact ⟨v0, heq ▸ hp⟩

theorem mem_dictPop {d : List (String × Option String)} {k k2 : String} {v : Option String}
    (hne : k2 ≠ k) (h : (k2, v) ∈ d) : (k2, v) ∈ dictPop d k :=
  List.mem_filter.mpr ⟨h, by simpa using hne⟩

/-- Every row `csv.DictReader` yields has the dict built from the payload's
fieldnames. -/
theorem csvDictReaderRows_cells {content : String} {r : CsvRow}
    (hr : r ∈ csvDictReaderRows content) :
    ∃ vals, r.cells = buildDict (csvFieldnames content) vals := by
  unfold csvDictReaderRows at hr
  cases hsplit : (splitOnChar '\n' content.toList).map String.mk with
  | nil => rw [hsplit] at hr; cases hr
  | cons hd tl =>
    rw [hsplit] at hr
    simp only [] at hr
    rcases List.mem_map.mp hr with ⟨line, hline, rfl⟩
    refine ⟨splitFields line, ?_⟩
    simp only [csvFieldnames, hsplit]

/-- C6 (amended): both delimited parsers drop the `"eor"` end-of-record
column from every row, and every other header column appears as a key in
every row; but only the temperature parser additionally drops empty-string
header columns (and the restkey entry) — the precipitation parser keeps
them. -/
theorem C6_dropped_columns (content : String) :
    (∀ r ∈ tempParseRows content,
      (∀ kv ∈ r.cells, kv.1 ≠ "eor" ∧ kv.1 ≠ "") ∧ r.extra = none) ∧
    (∀ r ∈ precipParseRows content, ∀ kv ∈ r.cells, kv.1 ≠ "eor") ∧
    (∀ hdr ∈ csvFieldnames content, hdr ≠ "eor" →
      ∀ r ∈ precipParseRows content, ∃ v, (hdr, v) ∈ r.cells) ∧
    (∀ hdr ∈ csvFieldnames content, hdr ≠ "eor" → hdr ≠ "" →
      ∀ r ∈ tempParseRows content, ∃ v, (hdr, v) ∈ r.cells) := by
  refine ⟨?_, ?_, ?_, ?_⟩
  · intro r hr
    unfold tempParseRows at hr
    rcases List.mem_map.mp hr with ⟨r0, hr0, rfl⟩
    refine ⟨?_, rfl⟩
    intro kv hkv
    have h2 := List.mem_filter.mp hkv
    have h3 := List.mem_filter.mp h2.1
    exact ⟨by simpa using h3.2, by simpa using h2.2⟩
  · intro r hr
    unfold precipParseRows at hr
    rcases List.mem_map.mp hr with ⟨r0, hr0, rfl⟩
    intro kv hkv
    have h2 := List.mem_filter.mp hkv
    simpa using h2.2
  · intro hdr hmem hneor r hr
    unfold precipParseRows at hr
    rcases List.mem_map.mp hr with ⟨r0, hr0, rfl⟩
    rcases csvDictReaderRows_cells hr0 with ⟨vals, hcells⟩
    have hk : hdr ∈ dictKeys r0.cells := by
      rw [hcells]
      exact mem_dictKeys_buildDict.mpr hmem
    rcases exists_pair_of_mem_dictKeys hk with ⟨v, hv⟩
    exact ⟨v, mem_dictPop hneor hv⟩
  · intro hdr hmem hneor hnemp r hr
    unfold tempParseRows at hr
    rcases List.mem_map.mp hr with ⟨r0, hr0, rfl⟩
    rcases csvDictReaderRows_cells hr0 with ⟨vals, hcells⟩
    have hk : hdr ∈ dictKeys r0.cells := by
      rw [hcells]
      exact mem_dictKeys_buildDict.mpr hmem
    rcases exists_pair_of_mem_dictKeys hk with ⟨v, hv⟩
    exact ⟨v, List.mem_filter.mpr ⟨mem_dictPop hneor hv, by simpa using hnemp⟩⟩

/-- C6 witness: the amended statement applied to the concrete payload
`"A;B;;eor\n1;2;3;x\n"` and its rows. -/
theorem C6_dropped_columns_witness :
    ((∀ kv ∈ (CsvRow.mk [("A", some "1"), ("B", some "2")] none).cells,
        kv.1 ≠ "eor" ∧ kv.1 ≠ "") ∧
      (CsvRow.mk [("A", some "1"), ("B", some "2")] none).extra = none) ∧
    (∀ kv ∈ (CsvRow.mk [("A", some "1"), ("B", some "2"), ("", some "3")] none).cells,
      kv.1 ≠ "eor") ∧
    (∃ v, ("A", v) ∈ (CsvRow.mk [("A", some "1"), ("B", some "2"), ("", some "3")] none).cells) ∧
    (∃ v, ("B", v) ∈ (CsvRow.mk [("A", some "1"), ("B", some "2")] none).cells) := by
  refine ⟨(C6_dropped_columns "A;B;;eor\n1;2;3;x\n").1 _ (by decide),
    (C6_dropped_columns "A;B;;eor\n1;2;3;x\n").2.1 _ (by decide),
    (C6_dropped_columns "A;B;;eor\n1;2;3;x\n").2.2.1 "A" (by decide) (by decide) _ (by decide),
    (C6_dropped_columns "A;B;;eor\n1;2;3;x\n").2.2.2 "B" (by decide) (by decide) (by decide)
      _ (by decide)⟩
